import Mathlib

/-!
# Verification of `cloud_monitor.py` (jp-stock-monitor)

A shallow embedding of the Streamlit dashboard `src/cloud_monitor.py`.
The file contains two script variants: a complete one (lines 1-245,
functions `get_current_price`, `fetch_index_data`, `fetch_stock_data`
and the main refresh flow) and the tail of an earlier variant
(lines 246-337, the body of `get_stock_data` and its display flow).

Modelling conventions:
* Prices are rationals (`ℚ`), idealising the floats of the source.
* Each `yf.Ticker(t).history(...)` call is modelled by a field of
  `TickerData`: `none` means the call raised an exception, `some rows`
  means it returned a DataFrame with those rows.  The same call on the
  same ticker is assumed to give the same response within one refresh.
* Python exception handling becomes `Option`: a `try` block that can
  fail is a value of `Option _`, and the enclosing `except` handler is
  the `none` branch of a `match`.
* Python float division raises `ZeroDivisionError` on a zero
  denominator; `pyDiv` models this with `Option`.  (The pandas scalar
  divisions in `fetch_index_data` do not raise; they are modelled with
  total `ℚ` division.)
* Strings that the program computes on (ticker lists, URL query
  parameters) are modelled as `List Char`, so that Python's `strip`,
  `replace`, `split` and `join` have executable counterparts.
-/

/-- One row of a yfinance history DataFrame: the `Open` and `Close`
columns (the only ones the program reads). -/
structure Row where
  Open : ℚ
  Close : ℚ
deriving DecidableEq

/-- The provider's responses for one ticker symbol, one per distinct
`history` call the program makes.  `none` = the call raised. -/
structure TickerData where
  /-- `stock.history(period="1d", interval="5m")` -/
  hist1d5m : Option (List Row)
  /-- `stock.history(period="5d")` -/
  hist5d : Option (List Row)
  /-- `stock.history(start=start_str)` (with `interval="1d"` in the
  `get_stock_data` variant) -/
  histStart : Option (List Row)
  /-- `stock.history(period="1mo")` -/
  hist1mo : Option (List Row)
deriving DecidableEq

/-- Python float division: raises (`none`) on a zero denominator. -/
def pyDiv (a b : ℚ) : Option ℚ :=
  if b = 0 then none else some (a / b)

/-- `get_current_price` (lines 25-40): try the last close of the
intraday 5-minute history, else the last close of the 5-day history,
else `0.0`; any exception also yields `0.0`. -/
def get_current_price (d : TickerData) : ℚ :=
  match d.hist1d5m with
  | none => 0
  | some todays_data =>
    match todays_data.getLast? with
    | some r => r.Close
    | none =>
      match d.hist5d with
      | none => 0
      | some recent_data =>
        match recent_data.getLast? with
        | some r => r.Close
        | none => 0

/-- The month-history acquisition pattern shared by `fetch_index_data`
(lines 55-57), `fetch_stock_data` (lines 104-106) and `get_stock_data`
(lines 248-251): `history(start=start_str)`, falling back to
`history(period="1mo")` when the first result is empty; an exception
from either call propagates (`none`). -/
def histFrom (d : TickerData) : Option (List Row) :=
  match d.histStart with
  | none => none
  | some h => if h = [] then d.hist1mo else some h

/-- Result dictionary of `fetch_index_data`: either
`{"valid": False}` or `{"daily_ret": _, "mtd_ret": _, "price": _,
"valid": True}`. -/
inductive IndexResult where
  | invalid
  | valid (daily_ret mtd_ret price : ℚ)
deriving DecidableEq

/-- A Python dict value occurring in the results of
`fetch_index_data`: a bool or a float. -/
inductive PyValue where
  | b (v : Bool)
  | q (v : ℚ)
deriving DecidableEq

/-- The literal dictionary `fetch_index_data` returns (lines 81-88),
as an association list in insertion order. -/
def IndexResult.toDict : IndexResult → List (String × PyValue)
  | .invalid => [("valid", .b false)]
  | .valid daily_ret mtd_ret price =>
      [("daily_ret", .q daily_ret), ("mtd_ret", .q mtd_ret),
       ("price", .q price), ("valid", .b true)]

/-- `fetch_index_data` (lines 42-88).  The 5-day history, the month
history (with its `1mo` fallback) and the realtime price are fetched;
the daily return uses the second-to-last 5-day close, the MTD return
the first month-history open.  Any exception yields `{"valid": False}`.
The scalar divisions are pandas/numpy operations and do not raise. -/
def fetch_index_data (d : TickerData) : IndexResult :=
  match d.hist5d with
  | none => .invalid
  | some hist_recent =>
    match histFrom d with
    | none => .invalid
    | some hist_mtd =>
      let cp := get_current_price d
      let current_price :=
        if cp = 0 then
          match hist_recent.getLast? with
          | some r => r.Close
          | none => cp
        else cp
      let daily_ret : ℚ :=
        match hist_recent.dropLast.getLast? with
        | some prev => (current_price - prev.Close) / prev.Close
        | none => 0
      let mtd_ret : ℚ :=
        match hist_mtd.head? with
        | some first => (current_price - first.Open) / first.Open
        | none => 0
      .valid daily_ret mtd_ret current_price

/-- One row of the portfolio DataFrame.  Field names translate the
source's Chinese keys: `code` = 代码, `buy_price` = 买入价,
`current_price` = 现价, `ret` = 收益率.  (The 买入日 display string is
not modelled; no property concerns it.) -/
structure StockRow where
  code : List Char
  buy_price : ℚ
  current_price : ℚ
  ret : ℚ
deriving DecidableEq

/-- The loop body of `fetch_stock_data` (lines 101-130) for one code:
month history with fallback, realtime price with last-close fallback,
month-opening buy price, and the guarded return
`(current_price - buy_price) / buy_price if buy_price else 0`.
`none` = an exception was caught and the row skipped. -/
def fetch_stock_entry (code : List Char) (d : TickerData) : Option StockRow :=
  match histFrom d with
  | none => none
  | some hist =>
    let cp := get_current_price d
    let current_price :=
      if cp = 0 then
        match hist.getLast? with
        | some r => r.Close
        | none => cp
      else cp
    let buy_price : ℚ :=
      match hist.head? with
      | some r => r.Open
      | none => 0
    match (if buy_price ≠ 0 then pyDiv (current_price - buy_price) buy_price
           else some 0) with
    | none => none
    | some ret => some ⟨code, buy_price, current_price, ret⟩

/-- `code.strip()`: Python `str.strip`, removing leading and trailing
whitespace. -/
def pyStrip (s : List Char) : List Char :=
  ((s.dropWhile Char.isWhitespace).reverse.dropWhile Char.isWhitespace).reverse

/-- Line 99: `f"{code}.T" if not code.endswith(".T") else code`. -/
def tickerOf (code : List Char) : List Char :=
  if ['.', 'T'].isSuffixOf code then code else code ++ ['.', 'T']

/-- `fetch_stock_data` (lines 90-135): iterate the codes in order,
strip each, skip blanks, fetch each row, and silently skip rows whose
fetch raised.  `env` maps each ticker symbol to the provider's
responses for it. -/
def fetch_stock_data (env : List Char → TickerData) (codes : List (List Char)) :
    List StockRow :=
  codes.filterMap fun code =>
    let c := pyStrip code
    if c = [] then none else fetch_stock_entry c (env (tickerOf c))

/-- The loop body of the `get_stock_data` variant (lines 246-282) for
one code: here the intraday fetch is inside the same `try` (so its
exception skips the row), and an empty month history makes the buy
price default to the current price (line 268) rather than 0. -/
def get_stock_entry (code : List Char) (d : TickerData) : Option StockRow :=
  match histFrom d with
  | none => none
  | some hist =>
    match d.hist1d5m with
    | none => none
    | some todays_data =>
      let current_price : ℚ :=
        match todays_data.getLast? with
        | some r => r.Close
        | none =>
          match hist.getLast? with
          | some r => r.Close
          | none => 0
      let buy_price : ℚ :=
        match hist.head? with
        | some r => r.Open
        | none => current_price
      match (if buy_price ≠ 0 then pyDiv (current_price - buy_price) buy_price
             else some 0) with
      | none => none
      | some ret => some ⟨code, buy_price, current_price, ret⟩

/-- `get_stock_data` of the earlier variant: same per-code iteration as
`fetch_stock_data` with `get_stock_entry` as the loop body. -/
def get_stock_data (env : List Char → TickerData) (codes : List (List Char)) :
    List StockRow :=
  codes.filterMap fun code =>
    let c := pyStrip code
    if c = [] then none else get_stock_entry c (env (tickerOf c))

/-! ## The main refresh flow (lines 137-245) -/

/-- `pd.Series.mean`: sum of the values divided by their count. -/
def series_mean (l : List ℚ) : ℚ :=
  l.foldl (· + ·) 0 / l.length

/-- Line 198: `avg_ret = df['收益率'].mean()`. -/
def avg_ret (df : List StockRow) : ℚ :=
  series_mean (df.map StockRow.ret)

/-- Lines 198-199 (and 309-310 of the earlier variant):
`total_ret = avg_ret * leverage`. -/
def total_ret (df : List StockRow) (leverage : ℚ) : ℚ :=
  avg_ret df * leverage

/-- Lines 202-204: `alpha = 0.0`, overwritten with
`total_ret - topix_data['mtd_ret']` when the TOPIX data is valid. -/
def alpha (df : List StockRow) (leverage : ℚ) (topix_data : IndexResult) : ℚ :=
  match topix_data with
  | .invalid => 0
  | .valid _ mtd_ret _ => total_ret df leverage - mtd_ret

/-- Line 220 (and 317): `df.sort_values(by='收益率', ascending=False)`,
modelled by a comparison sort on the `ret` column in descending order. -/
def sort_values_ret_desc (df : List StockRow) : List StockRow :=
  List.insertionSort (fun a b => b.ret ≤ a.ret) df

/-- The ticker symbol of the Nikkei 225 index (line 157). -/
def N225 : List Char := ['^', 'N', '2', '2', '5']

/-- The ticker symbol of the TOPIX index (line 158). -/
def TOPX : List Char := ['^', 'T', 'O', 'P', 'X']

/-- Everything one press of the refresh button fetches
(lines 155-161). -/
structure RefreshOutput where
  nikkei_data : IndexResult
  topix_data : IndexResult
  df : List StockRow
deriving DecidableEq

/-- Lines 155-161: on refresh, fetch the Nikkei 225 index data, the
TOPIX index data, and the per-ticker stock data. -/
def refresh (env : List Char → TickerData) (codes : List (List Char)) :
    RefreshOutput :=
  ⟨fetch_index_data (env N225), fetch_index_data (env TOPX),
   fetch_stock_data env codes⟩

/-! ## Query-parameter persistence (lines 11-16, 148-153, 244-245) -/

/-- Line 11: `FALLBACK_CODES = "7203, 9984, 8035"`. -/
def FALLBACK_CODES : List Char :=
  ['7', '2', '0', '3', ',', ' ', '9', '9', '8', '4', ',', ' ', '8', '0', '3', '5']

/-- Lines 13-16: the text area's initial value is the `codes` URL query
parameter when present, else `FALLBACK_CODES`.  The query-parameter
state is the value of the `codes` key (`none` = key absent). -/
def initial_value (query_params : Option (List Char)) : List Char :=
  match query_params with
  | some v => v
  | none => FALLBACK_CODES

/-- Line 148: replace newlines and full-width commas by commas, split
on commas, strip each piece, drop blanks. -/
def clean_codes_list (user_input : List Char) : List (List Char) :=
  (((user_input.map fun c => if c = '\n' then ',' else c).map
      fun c => if c = '，' then ',' else c).splitOn ',').map pyStrip
    |>.filter (· ≠ [])

/-- Line 149: `",".join(clean_codes_list)`. -/
def clean_codes_str (codes : List (List Char)) : List Char :=
  (codes.intersperse [',']).flatten

/-- Line 153: the refresh button writes the cleaned code string into
the `codes` URL query parameter, whatever the parameter held before. -/
def refresh_query_params (query_params : Option (List Char))
    (user_input : List Char) : Option (List Char) :=
  some (clean_codes_str (clean_codes_list user_input))

/-! ## The TOPIX fallback chain of the later variants -/

/-- The data sources the spec's fallback chain draws on, in priority
order. -/
inductive IndexSource where
  | primaryAPI
  | scrapeA
  | scrapeB
  | proxyETF
deriving DecidableEq

/-- Modelled from the spec: the TOPIX data-acquisition fallback chain
of the later variants of this repository, whose code is not part of
`src/cloud_monitor.py` — "sequential attempts across data sources
(primary API → scrape site A → scrape site B → proxy ETF) until one
returns a usable value".  `attempt s = none` means source `s` failed or
returned no usable value. -/
def tryChain (attempt : IndexSource → Option ℚ) :
    List IndexSource → Option ℚ
  | [] => none
  | s :: rest =>
    match attempt s with
    | some v => some v
    | none => tryChain attempt rest

/-- Modelled from the spec: the chain tried for the TOPIX index level,
in the spec's order. -/
def topix_fallback (attempt : IndexSource → Option ℚ) : Option ℚ :=
  tryChain attempt
    [IndexSource.primaryAPI, IndexSource.scrapeA,
     IndexSource.scrapeB, IndexSource.proxyETF]

/-! ## Sample provider responses, used to instantiate the theorems -/

/-- A ticker whose every fetch succeeds: one intraday row closing at
110, two daily rows closing at 100 and 105, and one month row opening
at 100. -/
def dFull : TickerData :=
  ⟨some [⟨100, 110⟩], some [⟨1, 100⟩, ⟨1, 105⟩], some [⟨100, 102⟩], some []⟩

/-- A ticker whose intraday fetch raises and whose other fetches return
empty DataFrames. -/
def dEmpty : TickerData :=
  ⟨none, some [], some [], some []⟩

/-- A ticker whose every fetch returns an empty DataFrame. -/
def dAllEmpty : TickerData :=
  ⟨some [], some [], some [], some []⟩

/-- A ticker whose every fetch raises. -/
def dRaise : TickerData :=
  ⟨none, none, none, none⟩

/-- An environment answering every ticker symbol with `dFull`. -/
def envFull : List Char → TickerData := fun _ => dFull

/-- The single-entry code list `["7203"]`. -/
def codes7203 : List (List Char) := [['7', '2', '0', '3']]

/-! ## Theorems -/

/-- `tryChain` returns the value of the first source in the list whose
attempt yields a usable value. -/
theorem tryChain_eq_head_filterMap (attempt : IndexSource → Option ℚ) :
    ∀ l : List IndexSource, tryChain attempt l = (l.filterMap attempt).head? := by
  intro l
  induction l with
  | nil => rfl
  | cons s rest ih =>
    cases h : attempt s <;> simp [tryChain, h, ih]

/-- C1: the TOPIX acquisition tries primary API, scrape site A, scrape
site B and the proxy ETF in that order and returns the first usable
value, so it does not give up after the primary API alone. -/
theorem C1_topix_fallback_chain (attempt : IndexSource → Option ℚ) :
    topix_fallback attempt =
      (([IndexSource.primaryAPI, IndexSource.scrapeA, IndexSource.scrapeB,
         IndexSource.proxyETF].filterMap attempt).head?) :=
  tryChain_eq_head_filterMap attempt _

/-- C4: for every non-empty portfolio DataFrame, the leveraged total
return is the unweighted arithmetic mean of the per-ticker returns
times the leverage factor. -/
theorem C4_total_ret_is_mean_times_leverage (df : List StockRow) (leverage : ℚ)
    (h : df ≠ []) :
    total_ret df leverage = ((df.map StockRow.ret).sum / df.length) * leverage := by
  simp [total_ret, avg_ret, series_mean, List.sum_eq_foldl]

/-- Witness for C4 at a concrete two-row portfolio. -/
theorem C4_total_ret_is_mean_times_leverage_witness :
    total_ret [⟨['7'], 100, 110, 1/10⟩, ⟨['8'], 100, 120, 1/5⟩] 2
      = (([⟨['7'], 100, 110, (1 : ℚ)/10⟩, ⟨['8'], 100, 120, 1/5⟩].map
            StockRow.ret).sum / 2) * 2 :=
  C4_total_ret_is_mean_times_leverage _ 2 (by simp)

/-- C7: one press of the refresh button fetches index data for the
Nikkei 225 (`^N225`) and for TOPIX (`^TOPX`) in addition to the
per-ticker stock data. -/
theorem C7_refresh_fetches_both_benchmarks (env : List Char → TickerData)
    (codes : List (List Char)) :
    (refresh env codes).nikkei_data = fetch_index_data (env N225)
    ∧ (refresh env codes).topix_data = fetch_index_data (env TOPX)
    ∧ (refresh env codes).df = fetch_stock_data env codes :=
  ⟨rfl, rfl, rfl⟩

/-- The descending-return comparison used by the detail list is total. -/
instance : IsTotal StockRow (fun a b => b.ret ≤ a.ret) :=
  ⟨fun a b => le_total b.ret a.ret⟩

/-- The descending-return comparison used by the detail list is
transitive. -/
instance : IsTrans StockRow (fun a b => b.ret ≤ a.ret) :=
  ⟨fun _ _ _ h1 h2 => le_trans h2 h1⟩

/-- C10: for every non-empty portfolio DataFrame, the rendered detail
rows are the rows of the DataFrame sorted in non-increasing order of
the 收益率 (return) column. -/
theorem C10_rows_sorted_desc (df : List StockRow) (h : df ≠ []) :
    (sort_values_ret_desc df).Sorted (fun a b => b.ret ≤ a.ret)
    ∧ List.Perm (sort_values_ret_desc df) df :=
  ⟨List.sorted_insertionSort _ df, List.perm_insertionSort _ df⟩

/-- Witness for C10 at a concrete two-row portfolio. -/
theorem C10_rows_sorted_desc_witness :
    (sort_values_ret_desc [⟨['7'], 100, 110, 1/10⟩, ⟨['8'], 100, 120, 1/5⟩]).Sorted
        (fun a b => b.ret ≤ a.ret)
    ∧ List.Perm (sort_values_ret_desc [⟨['7'], 100, 110, 1/10⟩, ⟨['8'], 100, 120, 1/5⟩])
        [⟨['7'], 100, 110, 1/10⟩, ⟨['8'], 100, 120, 1/5⟩] :=
  C10_rows_sorted_desc _ (by simp)

/-- C2: whenever the fetch succeeds and a non-empty month history with
a non-zero opening price is obtained, the month-to-date return — of an
index via `fetch_index_data` and of a stock via `fetch_stock_entry` —
is the percentage change from the first month-history row's opening
price to the latest price. -/
theorem C2_mtd_return_formula (d : TickerData) :
    (∀ dr m p hist first, fetch_index_data d = .valid dr m p →
        histFrom d = some hist → hist.head? = some first → first.Open ≠ 0 →
        m = (p - first.Open) / first.Open)
    ∧ (∀ code e hist first, fetch_stock_entry code d = some e →
        histFrom d = some hist → hist.head? = some first → first.Open ≠ 0 →
        e.ret = (e.current_price - first.Open) / first.Open) := by
  constructor
  · intro dr m p hist first hvalid hhist hfirst _
    rcases h5 : d.hist5d with _ | hist_recent
    · rw [fetch_index_data, h5] at hvalid; exact absurd hvalid (by simp)
    · rw [fetch_index_data, h5, hhist] at hvalid
      simp only [hfirst] at hvalid
      cases hvalid
      rfl
  · intro code e hist first hsome hhist hfirst hopen
    rw [fetch_stock_entry, hhist] at hsome
    simp only [hfirst] at hsome
    rw [if_pos hopen, pyDiv, if_neg hopen] at hsome
    cases hsome
    rfl

/-- Witness for C2 on the ticker `dFull`: month open 100, latest price
110, MTD return 1/10. -/
theorem C2_mtd_return_formula_witness :
    ((1 : ℚ)/10 = ((110 : ℚ) - 100) / 100)
    ∧ ((⟨['7', '2', '0', '3'], 100, 110, 1/10⟩ : StockRow).ret
        = ((⟨['7', '2', '0', '3'], 100, 110, (1 : ℚ)/10⟩ : StockRow).current_price
            - 100) / 100) :=
  ⟨(C2_mtd_return_formula dFull).1 ((110 - 100)/100) (1/10) 110 [⟨100, 102⟩]
      ⟨100, 102⟩ (by norm_num [fetch_index_data, dFull, histFrom, get_current_price])
      rfl rfl (by norm_num),
   (C2_mtd_return_formula dFull).2 ['7', '2', '0', '3']
      ⟨['7', '2', '0', '3'], 100, 110, 1/10⟩ [⟨100, 102⟩] ⟨100, 102⟩
      (by norm_num [fetch_stock_entry, dFull, histFrom, get_current_price, pyDiv])
      rfl rfl (by norm_num)⟩

/-- The concrete code `7203` is already stripped. -/
theorem pyStrip_7203 : pyStrip ['7', '2', '0', '3'] = ['7', '2', '0', '3'] := by
  decide

/-- C3: whenever the fetched TOPIX data is valid and the portfolio
DataFrame is non-empty, the displayed Alpha is the leveraged strategy
return (mean per-ticker return times leverage) minus the TOPIX
month-to-date return. -/
theorem C3_alpha_is_excess_return (env : List Char → TickerData)
    (codes : List (List Char)) (leverage dr m p : ℚ)
    (htopix : (refresh env codes).topix_data = .valid dr m p)
    (hdf : (refresh env codes).df ≠ []) :
    alpha (refresh env codes).df leverage (refresh env codes).topix_data
      = avg_ret (refresh env codes).df * leverage - m := by
  rw [htopix]
  rfl

/-- Witness for C3 with every ticker answering `dFull` and the single
holding `7203`. -/
theorem C3_alpha_is_excess_return_witness :
    alpha (refresh envFull codes7203).df 2 (refresh envFull codes7203).topix_data
      = avg_ret (refresh envFull codes7203).df * 2 - 1/10 :=
  C3_alpha_is_excess_return envFull codes7203 2 ((110 - 100)/100) (1/10) 110
    (by norm_num [refresh, envFull, fetch_index_data, dFull, histFrom,
      get_current_price, TOPX])
    (by norm_num [refresh, envFull, fetch_stock_data, codes7203, pyStrip_7203,
      fetch_stock_entry, dFull, histFrom, get_current_price, pyDiv, tickerOf]
        <;> exact ⟨by decide, by simp⟩)

/-- C5: failure recovery substitutes `0.0`: `get_current_price`
returns 0 when the intraday and 5-day fetches both fail or come back
empty, and a valid `fetch_index_data` result carries a daily return of
0 when the 5-day history is empty and an MTD return of 0 when the
month history (after its `1mo` fallback) is empty. -/
theorem C5_failure_defaults_to_zero (d : TickerData) :
    ((d.hist1d5m = none ∨ d.hist1d5m = some []) →
      (d.hist5d = none ∨ d.hist5d = some []) → get_current_price d = 0)
    ∧ (∀ dr m p, fetch_index_data d = .valid dr m p →
        d.hist5d = some [] → dr = 0)
    ∧ (∀ dr m p, fetch_index_data d = .valid dr m p →
        histFrom d = some [] → m = 0) := by
  refine ⟨?_, ?_, ?_⟩
  · rintro (h1 | h1) (h5 | h5) <;> simp [get_current_price, h1, h5]
  · intro dr m p hvalid h5
    rw [fetch_index_data, h5] at hvalid
    rcases hmtd : histFrom d with _ | hist_mtd
    · rw [hmtd] at hvalid; exact absurd hvalid (by simp)
    · rw [hmtd] at hvalid
      simp only [List.dropLast_nil, List.getLast?_nil] at hvalid
      cases hvalid
      rfl
  · intro dr m p hvalid hmtd
    rcases h5 : d.hist5d with _ | hist_recent
    · rw [fetch_index_data, h5] at hvalid; exact absurd hvalid (by simp)
    · rw [fetch_index_data, h5, hmtd] at hvalid
      simp only [List.head?_nil] at hvalid
      cases hvalid
      rfl

/-- Witness for C5 on `dEmpty` (intraday raises, everything else
empty): price 0, daily return 0, MTD return 0. -/
theorem C5_failure_defaults_to_zero_witness :
    get_current_price dEmpty = 0 ∧ (0 : ℚ) = 0 ∧ (0 : ℚ) = 0 :=
  ⟨(C5_failure_defaults_to_zero dEmpty).1 (Or.inl rfl) (Or.inr rfl),
   (C5_failure_defaults_to_zero dEmpty).2.1 0 0 0
     (by simp [fetch_index_data, dEmpty, histFrom, get_current_price]) rfl,
   (C5_failure_defaults_to_zero dEmpty).2.2 0 0 0
     (by simp [fetch_index_data, dEmpty, histFrom, get_current_price])
     (by simp [histFrom, dEmpty])⟩

/-- C6 counterexample: the ticker list written to the `codes` URL query
parameter by a refresh survives to the next page load — the next
load's initial text-area value is the stored list, not the fallback
default — so state written by the program does outlive the
request/response cycle. -/
theorem C6_query_param_survives_counterexample :
    initial_value (refresh_query_params none ['7', '2', '0', '3'])
      ≠ initial_value none := by
  decide

/-- C6 as amended: the only state surviving a refresh is the `codes`
URL query parameter; a refresh overwrites it with the cleaned ticker
list regardless of its previous value, and the next page load's
initial value is exactly that cleaned list. -/
theorem C6_only_query_param_persists (query_params : Option (List Char))
    (user_input : List Char) :
    refresh_query_params query_params user_input
        = some (clean_codes_str (clean_codes_list user_input))
      ∧ initial_value (refresh_query_params query_params user_input)
        = clean_codes_str (clean_codes_list user_input) :=
  ⟨rfl, rfl⟩


/-- Closed form of `fetch_stock_entry` once the month history is
known: the row is always produced, with the guarded return. -/
theorem fetch_stock_entry_closed (code : List Char) (d : TickerData)
    (hist : List Row) (hhist : histFrom d = some hist) (buy current : ℚ)
    (hcur : current = (if get_current_price d = 0 then
        (match hist.getLast? with
         | some r => r.Close
         | none => get_current_price d)
      else get_current_price d))
    (hbuy : buy = (match hist.head? with
        | some r => r.Open
        | none => (0 : ℚ))) :
    fetch_stock_entry code d
      = some ⟨code, buy, current, if buy = 0 then 0 else (current - buy) / buy⟩ := by
  subst hcur hbuy
  rw [fetch_stock_entry, hhist]
  by_cases hb : (match hist.head? with
      | some r => r.Open
      | none => (0 : ℚ)) = 0
  · simp [hb, pyDiv]
  · simp [hb, pyDiv]

/-- Closed form of `get_stock_entry` once the month history and the
intraday history are known. -/
theorem get_stock_entry_closed (code : List Char) (d : TickerData)
    (hist todays : List Row) (hhist : histFrom d = some hist)
    (h1d : d.hist1d5m = some todays) (buy current : ℚ)
    (hcur : current = (match todays.getLast? with
        | some r => r.Close
        | none =>
          match hist.getLast? with
          | some r => r.Close
          | none => (0 : ℚ)))
    (hbuy : buy = (match hist.head? with
        | some r => r.Open
        | none => current)) :
    get_stock_entry code d
      = some ⟨code, buy, current, if buy = 0 then 0 else (current - buy) / buy⟩ := by
  subst hcur hbuy
  rw [get_stock_entry, hhist, h1d]
  by_cases hb : (match hist.head? with
      | some r => r.Open
      | none =>
        match todays.getLast? with
        | some r => r.Close
        | none =>
          match hist.getLast? with
          | some r => r.Close
          | none => (0 : ℚ)) = 0
  · simp [hb, pyDiv]
  · simp [hb, pyDiv]

/-- C8: the per-ticker return computation never divides by zero — in
both variants the guarded division always yields a row whenever the
history fetches succeed, and when the month history is empty or the
buy price is zero the recorded return is 0. -/
theorem C8_no_division_by_zero (code : List Char) (d : TickerData) :
    ((histFrom d).isSome → (fetch_stock_entry code d).isSome)
    ∧ ((histFrom d).isSome → d.hist1d5m.isSome →
        (get_stock_entry code d).isSome)
    ∧ (∀ e, fetch_stock_entry code d = some e →
        (histFrom d = some [] ∨ e.buy_price = 0) → e.ret = 0)
    ∧ (∀ e, get_stock_entry code d = some e →
        (histFrom d = some [] ∨ e.buy_price = 0) → e.ret = 0) := by
  refine ⟨?_, ?_, ?_, ?_⟩
  · intro hh
    obtain ⟨hist, hhist⟩ := Option.isSome_iff_exists.mp hh
    rw [fetch_stock_entry_closed code d hist hhist _ _ rfl rfl]
    rfl
  · intro hh h1
    obtain ⟨hist, hhist⟩ := Option.isSome_iff_exists.mp hh
    obtain ⟨todays, h1d⟩ := Option.isSome_iff_exists.mp h1
    rw [get_stock_entry_closed code d hist todays hhist h1d _ _ rfl rfl]
    rfl
  · intro e hsome hcase
    rcases hhist : histFrom d with _ | hist
    · rw [fetch_stock_entry, hhist] at hsome; cases hsome
    · rw [fetch_stock_entry_closed code d hist hhist _ _ rfl rfl] at hsome
      injection hsome with h
      subst h
      rcases hcase with hnil | hbuy
      · rw [hhist] at hnil
        injection hnil with hn
        subst hn
        simp
      · have hb : (match hist.head? with
            | some r => r.Open
            | none => (0 : ℚ)) = 0 := hbuy
        simp [hb]
  · intro e hsome hcase
    rcases hhist : histFrom d with _ | hist
    · rw [get_stock_entry, hhist] at hsome; cases hsome
    · rcases h1d : d.hist1d5m with _ | todays
      · rw [get_stock_entry, hhist, h1d] at hsome; cases hsome
      · rw [get_stock_entry_closed code d hist todays hhist h1d _ _ rfl rfl] at hsome
        injection hsome with h
        subst h
        rcases hcase with hnil | hbuy
        · rw [hhist] at hnil
          injection hnil with hn
          subst hn
          by_cases hc : (match todays.getLast? with
              | some r => r.Close
              | none =>
                match ([] : List Row).getLast? with
                | some r => r.Close
                | none => (0 : ℚ)) = 0
          · simp [hc]
          · simp [hc, sub_self, zero_div]
        · have hb : (match hist.head? with
              | some r => r.Open
              | none =>
                match todays.getLast? with
                | some r => r.Close
                | none =>
                  match hist.getLast? with
                  | some r => r.Close
                  | none => (0 : ℚ)) = 0 := hbuy
          simp [hb]

/-- Witness for C8 on a ticker whose every fetch returns an empty
DataFrame: both variants still produce a row, with return 0. -/
theorem C8_no_division_by_zero_witness :
    (fetch_stock_entry ['7'] dAllEmpty).isSome
    ∧ (get_stock_entry ['7'] dAllEmpty).isSome
    ∧ (⟨['7'], 0, 0, 0⟩ : StockRow).ret = 0
    ∧ (⟨['7'], 0, 0, 0⟩ : StockRow).ret = 0 :=
  ⟨(C8_no_division_by_zero ['7'] dAllEmpty).1 (by simp [histFrom, dAllEmpty]),
   (C8_no_division_by_zero ['7'] dAllEmpty).2.1 (by simp [histFrom, dAllEmpty])
     (by simp [dAllEmpty]),
   (C8_no_division_by_zero ['7'] dAllEmpty).2.2.1 ⟨['7'], 0, 0, 0⟩
     (by simp [fetch_stock_entry, histFrom, dAllEmpty, get_current_price, pyDiv])
     (Or.inl (by simp [histFrom, dAllEmpty])),
   (C8_no_division_by_zero ['7'] dAllEmpty).2.2.2 ⟨['7'], 0, 0, 0⟩
     (by simp [get_stock_entry, histFrom, dAllEmpty, get_current_price, pyDiv])
     (Or.inl (by simp [histFrom, dAllEmpty]))⟩

/-- C9: `fetch_index_data` always yields a dictionary containing the
key `valid`; when that key is `True` the keys `daily_ret`, `mtd_ret`
and `price` are present too; and on an exception the dictionary is
exactly `{"valid": False}`. -/
theorem C9_interface_shape (d : TickerData) :
    (((fetch_index_data d).toDict.lookup "valid").isSome)
    ∧ ((fetch_index_data d).toDict.lookup "valid" = some (.b true) →
        ((fetch_index_data d).toDict.lookup "daily_ret").isSome
        ∧ ((fetch_index_data d).toDict.lookup "mtd_ret").isSome
        ∧ ((fetch_index_data d).toDict.lookup "price").isSome)
    ∧ (fetch_index_data d = .invalid →
        (fetch_index_data d).toDict = [("valid", .b false)]) := by
  rcases h : fetch_index_data d with _ | ⟨dr, m, p⟩ <;>
    simp [IndexResult.toDict, List.lookup]

/-- Witness for C9: a ticker with empty histories yields a valid
dictionary with all four keys; a ticker whose fetches raise yields
exactly `{"valid": False}`. -/
theorem C9_interface_shape_witness :
    (((fetch_index_data dEmpty).toDict.lookup "daily_ret").isSome
      ∧ ((fetch_index_data dEmpty).toDict.lookup "mtd_ret").isSome
      ∧ ((fetch_index_data dEmpty).toDict.lookup "price").isSome)
    ∧ (fetch_index_data dRaise).toDict = [("valid", PyValue.b false)] :=
  ⟨(C9_interface_shape dEmpty).2.1
      (by simp [fetch_index_data, dEmpty, histFrom, get_current_price,
        IndexResult.toDict, List.lookup]),
   (C9_interface_shape dRaise).2.2 (by simp [fetch_index_data, dRaise])⟩
